import Mathlib

set_option linter.unusedVariables false

/- =========================================================================
   Shallow embedding of the repository's two components:

   Part 1: src/01-vlan_calculator/vlan_calculator.py  (calculate_vlan)
   Part 2: src/02-ip_management/ip_manager.py         (class IPManager)

   Conventions of the embedding:
   * IPv4 addresses are represented by their numeric value (a Nat below
     2^32); Python's ipaddress.ip_address is a bijection between dotted
     address strings and these numbers, and every comparison / set
     membership test performed by the source is on that numeric value.
   * Python dict fields that may be absent are Option fields; a key that is
     present but bound to None or to the empty string is outside the model.
   * A device 'ip' entry is either the sentinel string "dhcp" (IpVal.dhcp)
     or a literal address (IpVal.lit n, n its numeric value).  Malformed
     literal strings (which would raise in ipaddress.ip_address) are
     outside the model.
   * A function that can raise an uncaught Python exception is modelled
     with an Option result, none marking the raise.
   * Inventory models the in-memory YAML document: the value of the
     top-level 'sites' mapping, as an ordered association list (Python
     dicts preserve insertion order and have unique keys).
   ========================================================================= -/

/- ==================== Part 1: vlan_calculator.py ==================== -/

/- Python str.upper, character by character (the source only ever feeds it
   ASCII site codes). -/
def pyUpper (s : String) : String := String.mk (s.data.map Char.toUpper)

/- vlan_names dict plus the .get(vlan_id, "Unknown") default (lines 22-28
   and 57 of vlan_calculator.py). -/
def vlanNameOf (vlan_id : Nat) : String :=
  if vlan_id = 10 then "Hypervisor"
  else if vlan_id = 20 then "Server"
  else if vlan_id = 30 then "Backup"
  else if vlan_id = 40 then "Management"
  else if vlan_id = 50 then "Clients"
  else "Unknown"

/- Line 31: site_prefix = "10" if site.upper() == "HQ" else "20". -/
def sitePrefixOf (site : String) : String :=
  if pyUpper site = "HQ" then "10" else "20"

structure AddressSummary where
  vlan_id : Nat
  vlan_name : String
  site : String
  subnet : String
  subnet_mask : String
  cidr : String
  gateway : String
  first_usable : String
  last_usable : String
  broadcast : String
  dhcp_start : String
  dhcp_end : String
  usable_ips : Nat
deriving DecidableEq

/- calculate_vlan (vlan_calculator.py lines 9-71).  Python vlan_id is an
   int read from input(); the f-strings interpolate its decimal digits,
   which toString reproduces. -/
def calculate_vlan (vlan_id : Nat) (site : String) : AddressSummary :=
  let sp := sitePrefixOf site
  let subnet := "10." ++ sp ++ "." ++ toString vlan_id ++ ".0"
  { vlan_id := vlan_id
    vlan_name := vlanNameOf vlan_id
    site := pyUpper site
    subnet := subnet
    subnet_mask := "255.255.255.0"
    cidr := subnet ++ "/24"
    gateway := "10." ++ sp ++ "." ++ toString vlan_id ++ ".1"
    first_usable := "10." ++ sp ++ "." ++ toString vlan_id ++ ".2"
    last_usable := "10." ++ sp ++ "." ++ toString vlan_id ++ ".254"
    broadcast := "10." ++ sp ++ "." ++ toString vlan_id ++ ".255"
    dhcp_start := if vlan_id = 50 then "10." ++ sp ++ "." ++ toString vlan_id ++ ".50" else "N/A"
    dhcp_end := if vlan_id = 50 then "10." ++ sp ++ "." ++ toString vlan_id ++ ".150" else "N/A"
    usable_ips := 254 }

/- ==================== Part 2: ip_manager.py, data model ==================== -/

inductive IpVal where
  | dhcp : IpVal
  | lit : Nat → IpVal
deriving DecidableEq

structure Device where
  name : Option String
  type : Option String
  vlan : Option Nat
  ip : Option IpVal
  port : Option String
  switch : Option String
  status : Option String
  site : Option String
deriving DecidableEq

structure DhcpPool where
  start : Nat
  endAddr : Nat
deriving DecidableEq

/- A CIDR block, already parsed: 'a.b.c.d/p' with base the numeric value of
   a.b.c.d and prefixLen = p (0 <= p <= 32; ip_network rejects anything
   else at parse time). -/
structure Subnet where
  base : Nat
  prefixLen : Nat
deriving DecidableEq

structure VlanRecord where
  id : Nat
  subnet : Subnet
  gateway : Option Nat
  dhcp_pool : Option DhcpPool
deriving DecidableEq

structure Site where
  devices : List Device
  vlans : List VlanRecord
deriving DecidableEq

structure Inventory where
  sites : List (String × Site)
deriving DecidableEq

/- Number of addresses of the block. -/
def Subnet.size (s : Subnet) : Nat := 2 ^ (32 - s.prefixLen)

/- ipaddress.ip_network(..., strict=False) masks the host bits away:
   the network address is the base rounded down to a multiple of size. -/
def Subnet.network (s : Subnet) : Nat := s.base - s.base % s.size

def Subnet.broadcast (s : Subnet) : Nat := s.network + s.size - 1

/- network.hosts(): every address strictly between network and broadcast;
   for a /31 both addresses, for a /32 the single address (documented
   behaviour of ipaddress.IPv4Network.hosts).  Ascending order. -/
def Subnet.hosts (s : Subnet) : List Nat :=
  if s.prefixLen ≤ 30 then List.range' (s.network + 1) (s.size - 2)
  else if s.prefixLen = 31 then [s.network, s.network + 1]
  else [s.network]

/- ==================== ip_manager.py, query operations ==================== -/

/- self.inventory['sites'][site_name], first entry with that key. -/
def lookupSite (inv : Inventory) (site_name : String) : Option Site :=
  (inv.sites.find? (fun p => p.1 = site_name)).map (fun p => p.2)

/- Write back a mutated site record under its key. -/
def updateSite (inv : Inventory) (site_name : String) (st : Site) : Inventory :=
  { sites := inv.sites.map (fun p => if p.1 = site_name then (p.1, st) else p) }

/- device['site'] = site_key (line 101/107): the dict held by the store is
   mutated in place, so the annotated device is both returned and kept. -/
def annotateDevice (site_key : String) (d : Device) : Device :=
  { d with site := some site_key }

def Site.annotate (site_key : String) (st : Site) : Site :=
  { st with devices := st.devices.map (annotateDevice site_key) }

/- get_all_devices (lines 85-110).  Returns the flattened device list and
   the store state after the in-place 'site' annotations.  none models the
   ValueError of get_site_info when the filter names an unknown site. -/
def get_all_devices (inv : Inventory) (site_name : Option String) :
    Option (List Device × Inventory) :=
  match site_name with
  | some s =>
    match lookupSite inv s with
    | none => none
    | some st => some (st.devices.map (annotateDevice s), updateSite inv s (Site.annotate s st))
  | none =>
    some ((inv.sites.map (fun p => p.2.devices.map (annotateDevice p.1))).flatten,
          { sites := inv.sites.map (fun p => (p.1, Site.annotate p.1 p.2)) })

/- get_devices_by_vlan (lines 112-124): d.get('vlan') == vlan_id. -/
def get_devices_by_vlan (inv : Inventory) (vlan_id : Nat) (site_name : Option String) :
    Option (List Device × Inventory) :=
  (get_all_devices inv site_name).map
    (fun p => (p.1.filter (fun d => d.vlan = some vlan_id), p.2))

/- get_device_by_name (lines 140-155): first device whose 'name' equals the
   argument, in flattened order. -/
def get_device_by_name (inv : Inventory) (device_name : String) (site_name : Option String) :
    Option (Option Device × Inventory) :=
  (get_all_devices inv site_name).map
    (fun p => (p.1.find? (fun d => d.name = some device_name), p.2))

/- get_vlan_info (lines 157-172): first VLAN of the site with a matching
   id; outer none is the ValueError of get_site_info, inner none the
   "VLAN not found" result. -/
def get_vlan_info (inv : Inventory) (vlan_id : Nat) (site_name : String) :
    Option (Option VlanRecord) :=
  (lookupSite inv site_name).map (fun st => st.vlans.find? (fun r => r.id = vlan_id))

/- ==================== DHCP pool enumeration ==================== -/

/- The while loop of calculate_free_ips lines 212-215:
     current = start_ip
     while current <= end_ip:
         used_ips.add(current)
         current = ipaddress.ip_address(int(current) + 1)
   ip_address raises ValueError above 2^32 - 1; none models that raise
   (which propagates out of calculate_free_ips). -/
def dhcpRange (s e : Nat) : Option (List Nat) :=
  if h : s ≤ e then
    if s + 1 ≤ 2 ^ 32 - 1 then
      match dhcpRange (s + 1) e with
      | some l => some (s :: l)
      | none => none
    else none
  else some []
termination_by e + 1 - s
decreasing_by omega

/- ==================== calculate_free_ips ==================== -/

/- The used-address entries contributed by the devices of the VLAN:
   line 197-200, if ip and ip != 'dhcp'. -/
def usedIpsOf (devices : List Device) : List Nat :=
  devices.filterMap (fun d =>
    match d.ip with
    | some (IpVal.lit n) => some n
    | _ => none)

/- calculate_free_ips (lines 174-223).  none models an uncaught exception
   (unknown site, or pool enumeration overflow). -/
def calculate_free_ips (inv : Inventory) (vlan_id : Nat) (site_name : String) :
    Option (List Nat) :=
  match get_vlan_info inv vlan_id site_name with
  | none => none
  | some none => some []
  | some (some vinfo) =>
    match get_devices_by_vlan inv vlan_id (some site_name) with
    | none => none
    | some (devices, _) =>
      let used1 := usedIpsOf devices
      let used2 := match vinfo.gateway with
        | some g => used1 ++ [g]
        | none => used1
      match vinfo.dhcp_pool with
      | some pool =>
        match dhcpRange pool.start pool.endAddr with
        | none => none
        | some rng =>
          some ((vinfo.subnet.hosts).filter (fun ip => decide (ip ∉ used2 ++ rng)))
      | none => some ((vinfo.subnet.hosts).filter (fun ip => decide (ip ∉ used2)))

/- ==================== get_network_statistics ==================== -/

/- counts[key] = counts.get(key, 0) + 1 on an insertion-ordered dict. -/
def bump {α : Type} [DecidableEq α] : List (α × Nat) → α → List (α × Nat)
  | [], k => [(k, 1)]
  | (k0, c) :: rest, k =>
    if k0 = k then (k0, c + 1) :: rest else (k0, c) :: bump rest k

def countsBy {α : Type} [DecidableEq α] (key : Device → α) (ds : List Device) :
    List (α × Nat) :=
  ds.foldl (fun m d => bump m (key d)) []

structure Stats where
  total_devices : Nat
  by_type : List (String × Nat)
  by_vlan : List (Nat × Nat)
  by_status : List (String × Nat)
  dhcp_devices : Nat
  static_devices : Nat
deriving DecidableEq

def sumCounts {α : Type} (m : List (α × Nat)) : Nat := (m.map (fun p => p.2)).sum

/- get_network_statistics (lines 225-267). -/
def get_network_statistics (inv : Inventory) (site_name : Option String) : Option Stats :=
  (get_all_devices inv site_name).map (fun p =>
    let devices := p.1
    let dhcp_count := devices.countP (fun d => d.ip = some IpVal.dhcp)
    { total_devices := devices.length
      by_type := countsBy (fun d => d.type.getD "unknown") devices
      by_vlan := countsBy (fun d => d.vlan.getD 0) devices
      by_status := countsBy (fun d => d.status.getD "unknown") devices
      dhcp_devices := dhcp_count
      static_devices := devices.length - dhcp_count })

/- ==================== CRUD operations ==================== -/

/- Lines 282-285: the required-field presence loop. -/
def requiredOk (d : Device) : Bool :=
  d.name.isSome && d.type.isSome && d.vlan.isSome && d.ip.isSome &&
    d.port.isSome && d.switch.isSome && d.status.isSome

/- save_inventory (lines 57-65) dumps the whole in-memory document; the
   document written to backing storage is exactly the current state. -/
def save_inventory (inv : Inventory) : Inventory := inv

/- add_device (lines 269-302).  Every raise is caught and turned into
   false; mutations performed before the raise (the 'site' annotations done
   inside get_device_by_name) stay. -/
def add_device (inv : Inventory) (site_name : String) (device_data : Device) :
    Bool × Inventory :=
  if requiredOk device_data then
    match device_data.name with
    | none => (false, inv)
    | some nm =>
      match get_device_by_name inv nm (some site_name) with
      | none => (false, inv)
      | some (found, inv1) =>
        match found with
        | some _ => (false, inv1)
        | none =>
          match lookupSite inv1 site_name with
          | none => (false, inv1)
          | some st =>
            (true, save_inventory (updateSite inv1 site_name
               { st with devices := st.devices ++ [device_data] }))
  else (false, inv)

/- updates dict of update_device: a present field replaces the stored one
   (dict.update, shallow merge); the source only ever passes literal
   values, so a present key carries a value. -/
structure DeviceUpdate where
  name : Option String := none
  type : Option String := none
  vlan : Option Nat := none
  ip : Option IpVal := none
  port : Option String := none
  switch : Option String := none
  status : Option String := none
  site : Option String := none

def mergeField {α : Type} (u old : Option α) : Option α :=
  match u with
  | some v => some v
  | none => old

def mergeDevice (d : Device) (u : DeviceUpdate) : Device :=
  { name := mergeField u.name d.name
    type := mergeField u.type d.type
    vlan := mergeField u.vlan d.vlan
    ip := mergeField u.ip d.ip
    port := mergeField u.port d.port
    switch := mergeField u.switch d.switch
    status := mergeField u.status d.status
    site := mergeField u.site d.site }

/- The for loop of update_device lines 320-326: device['name'] raises
   KeyError on a nameless device (outer none); some none means the loop
   fell through without a match; some (some ds) is the device list after
   the in-place merge at the first matching index. -/
def updateLoop (u : DeviceUpdate) (device_name : String) :
    List Device → Option (Option (List Device))
  | [] => some none
  | d :: rest =>
    match d.name with
    | none => none
    | some m =>
      if m = device_name then some (some (mergeDevice d u :: rest))
      else (updateLoop u device_name rest).map (fun r => r.map (fun l => d :: l))

/- update_device (lines 304-338). -/
def update_device (inv : Inventory) (site_name device_name : String)
    (updates : DeviceUpdate) : Bool × Inventory :=
  match lookupSite inv site_name with
  | none => (false, inv)
  | some st =>
    match updateLoop updates device_name st.devices with
    | none => (false, inv)
    | some none => (false, inv)
    | some (some ds) =>
      (true, save_inventory (updateSite inv site_name { st with devices := ds }))

/- delete_device (lines 340-368).  The list comprehension evaluates
   d['name'] for every device, raising KeyError if any is nameless (caught,
   state untouched); the filtered list is assigned before the length check,
   but when nothing matched it is value-equal to the original. -/
def delete_device (inv : Inventory) (site_name device_name : String) :
    Bool × Inventory :=
  match lookupSite inv site_name with
  | none => (false, inv)
  | some st =>
    if st.devices.all (fun d => d.name.isSome) then
      let ds := st.devices.filter (fun d => decide (¬ d.name = some device_name))
      if ds.length = st.devices.length then
        (false, updateSite inv site_name { st with devices := ds })
      else
        (true, save_inventory (updateSite inv site_name { st with devices := ds }))
    else (false, inv)

/- ==================== Invariants of the Device data model ==================== -/

/- Per-site name uniqueness: the names of a site's devices are pairwise
   distinct. -/
def namesOk (st : Site) : Prop := (st.devices.map Device.name).Nodup

/- A literal ip is a valid address inside the subnet of the device's
   VLAN's VlanRecord (the first record of the site with that id). -/
def deviceIpOk (vlans : List VlanRecord) (d : Device) : Bool :=
  match d.ip with
  | some (IpVal.lit n) =>
    match d.vlan with
    | some v =>
      match vlans.find? (fun r => r.id = v) with
      | some r => decide (r.subnet.network ≤ n ∧ n < r.subnet.network + r.subnet.size)
      | none => false
    | none => false
  | _ => true

def ipsOk (st : Site) : Prop := ∀ d ∈ st.devices, deviceIpOk st.vlans d = true

instance decNamesOk (st : Site) : Decidable (namesOk st) := by
  unfold namesOk
  infer_instance

instance decIpsOk (st : Site) : Decidable (ipsOk st) := by
  unfold ipsOk
  exact List.decidableBAll _ _

/- ==================== Proof-side abbreviations ==================== -/

/- The used-address set assembled by calculate_free_ips before the DHCP
   pool is added: literal device addresses of the VLAN at the site, plus
   the declared gateway. -/
def usedOf (s : String) (st0 : Site) (r : VlanRecord) (v : Nat) : List Nat :=
  let u1 := usedIpsOf ((st0.devices.map (annotateDevice s)).filter (fun d => d.vlan = some v))
  match r.gateway with
  | some g => u1 ++ [g]
  | none => u1

/- ==================== Concrete fixtures ==================== -/

def mkDevice (nm ty : String) (vl : Nat) (ipv : IpVal) : Device :=
  { name := some nm, type := some ty, vlan := some vl, ip := some ipv,
    port := some "Gi0/1", switch := some "sw1", status := some "active", site := none }

/- 10.0.0.0/31: a VlanRecord whose subnet is a /31 block. -/
def rec31 : VlanRecord := ⟨10, ⟨167772160, 31⟩, none, none⟩

def inv31 : Inventory := ⟨[("hq", ⟨[], [rec31]⟩)]⟩

/- 0.0.0.40/30 with gateway the first host address. -/
def recW30 : VlanRecord := ⟨20, ⟨40, 30⟩, some 41, none⟩

def invW30 : Inventory := ⟨[("hq", ⟨[mkDevice "srv1" "server" 20 (IpVal.lit 99)], [recW30]⟩)]⟩

/- A /24 record whose declared DHCP pool has end < start. -/
def recPoolRev : VlanRecord := ⟨20, ⟨168432640, 24⟩, none, some ⟨168432740, 168432690⟩⟩

def invPoolRev : Inventory := ⟨[("hq", ⟨[], [recPoolRev]⟩)]⟩

/- 10.10.20.0/24 whose declared gateway is the network address itself. -/
def recGwNet : VlanRecord := ⟨20, ⟨168432640, 24⟩, some 168432640, none⟩

def invGwNet : Inventory := ⟨[("hq", ⟨[], [recGwNet]⟩)]⟩

/- 10.10.20.0/24 with gateway 10.10.20.1 (the first host). -/
def rec24 : VlanRecord := ⟨20, ⟨168432640, 24⟩, some 168432641, none⟩

def invW24 : Inventory := ⟨[("hq", ⟨[], [rec24]⟩)]⟩

def devA : Device := mkDevice "a" "server" 20 (IpVal.lit 168432650)

def devB : Device := mkDevice "a" "client" 30 IpVal.dhcp

def devC : Device := mkDevice "c" "client" 30 IpVal.dhcp

def invC7 : Inventory := ⟨[("hq", ⟨[devA], []⟩)]⟩

def devN2 : Device := mkDevice "b" "server" 20 (IpVal.lit 168432651)

def invC9 : Inventory := ⟨[("hq", ⟨[devA, devN2], [rec24]⟩)]⟩

def updC9 : DeviceUpdate := { name := some "a" }

/- A device whose literal ip 0.0.0.5 lies far outside its VLAN's subnet. -/
def devBadIp : Device := mkDevice "c" "server" 20 (IpVal.lit 5)

def stW : Stats := ⟨1, [("server", 1)], [(20, 1)], [("active", 1)], 0, 1⟩

/- ==================== Theorems ==================== -/

/-- C4 (confirmed): calculate_vlan 50 "HQ" reports the DHCP pool
"10.10.50.50" to "10.10.50.150"; calculate_vlan 20 "Branch" reports both
pool fields as "N/A"; and for every recognized vlan_id other than 50 the
pool fields are "N/A" regardless of site. -/
theorem dhcp_fields_only_vlan50 :
    (calculate_vlan 50 "HQ").dhcp_start = "10.10.50.50" ∧
    (calculate_vlan 50 "HQ").dhcp_end = "10.10.50.150" ∧
    (calculate_vlan 20 "Branch").dhcp_start = "N/A" ∧
    (calculate_vlan 20 "Branch").dhcp_end = "N/A" ∧
    ∀ (site : String) (v : Nat), v ∈ [10, 20, 30, 40] →
      (calculate_vlan v site).dhcp_start = "N/A" ∧
      (calculate_vlan v site).dhcp_end = "N/A" := by
  refine ⟨by decide, by decide, by decide, by decide, ?_⟩
  intro site v hv
  have hv50 : v ≠ 50 := by
    simp only [List.mem_cons, List.not_mem_nil, or_false] at hv
    omega
  constructor <;> simp [calculate_vlan, hv50]

/-- C4 witness: the general clause instantiated at vlan 10 and an
arbitrary unrecognized site string. -/
theorem dhcp_fields_only_vlan50_witness :
    (calculate_vlan 10 "Lab").dhcp_start = "N/A" ∧
    (calculate_vlan 10 "Lab").dhcp_end = "N/A" :=
  dhcp_fields_only_vlan50.2.2.2.2 "Lab" 10 (by decide)

/-- C5 (confirmed): for every recognized vlan id and both site codes,
calculate_vlan is deterministic, and its subnet, gateway, first_usable,
last_usable and broadcast strings share the subnet's first three octets,
with final octets 0, 1, 2, 254 and 255 (so first usable = gateway + 1 and
last usable = broadcast - 1). -/
theorem plan_deterministic_shared_octets :
    ∀ v ∈ [10, 20, 30, 40, 50], ∀ s ∈ ["HQ", "Branch"],
      calculate_vlan v s = calculate_vlan v s ∧
      ∃ p : String,
        (calculate_vlan v s).subnet = p ++ ".0" ∧
        (calculate_vlan v s).gateway = p ++ ".1" ∧
        (calculate_vlan v s).first_usable = p ++ ".2" ∧
        (calculate_vlan v s).last_usable = p ++ ".254" ∧
        (calculate_vlan v s).broadcast = p ++ ".255" := by
  intro v hv s hs
  refine ⟨rfl, "10." ++ sitePrefixOf s ++ "." ++ toString v, ?_, ?_, ?_, ?_, ?_⟩ <;>
    simp [calculate_vlan, String.append_assoc]

/-- C5 witness: instantiated at vlan 50, site "HQ". -/
theorem plan_deterministic_shared_octets_witness :
    calculate_vlan 50 "HQ" = calculate_vlan 50 "HQ" ∧
    ∃ p : String,
      (calculate_vlan 50 "HQ").subnet = p ++ ".0" ∧
      (calculate_vlan 50 "HQ").gateway = p ++ ".1" ∧
      (calculate_vlan 50 "HQ").first_usable = p ++ ".2" ∧
      (calculate_vlan 50 "HQ").last_usable = p ++ ".254" ∧
      (calculate_vlan 50 "HQ").broadcast = p ++ ".255" :=
  plan_deterministic_shared_octets 50 (by decide) "HQ" (by decide)

/-- C6 (confirmed): the site argument is matched case-insensitively (any
string upper-casing to "HQ" yields prefix "10", every other string falls
back to the Branch prefix "20"); the subnet is always
10.<site_prefix>.<vlan_id>.0 with cidr that subnet plus "/24"; and
usable_ips is the constant 254 for every input. -/
theorem site_case_insensitive_defaults :
    (∀ s : String, pyUpper s = "HQ" → sitePrefixOf s = "10") ∧
    (∀ s : String, pyUpper s ≠ "HQ" → sitePrefixOf s = "20") ∧
    (∀ s ∈ ["HQ", "hq", "Hq", "hQ"], sitePrefixOf s = "10") ∧
    (∀ (v : Nat) (s : String),
      (calculate_vlan v s).subnet =
        "10." ++ sitePrefixOf s ++ "." ++ toString v ++ ".0" ∧
      (calculate_vlan v s).cidr = (calculate_vlan v s).subnet ++ "/24" ∧
      (calculate_vlan v s).usable_ips = 254) := by
  refine ⟨?_, ?_, by decide, ?_⟩
  · intro s h; simp [sitePrefixOf, h]
  · intro s h; simp [sitePrefixOf, h]
  · intro v s; exact ⟨rfl, rfl, rfl⟩

/-- C6 witness: the case-insensitivity clause at "hQ" and the Branch
default at "branch" (which upper-cases to "BRANCH", not "HQ"). -/
theorem site_case_insensitive_defaults_witness :
    sitePrefixOf "hQ" = "10" ∧ sitePrefixOf "branch" = "20" :=
  ⟨site_case_insensitive_defaults.1 "hQ" (by decide),
   site_case_insensitive_defaults.2.1 "branch" (by decide)⟩

/- ==================== dhcpRange lemmas ==================== -/

theorem dhcpRange_of_lt {s e : Nat} (h : e < s) : dhcpRange s e = some [] := by
  rw [dhcpRange, dif_neg (by omega)]

theorem dhcpRange_eq_range'_aux :
    ∀ (n s e : Nat), e + 1 - s ≤ n → s ≤ e → e < 2 ^ 32 - 1 →
      dhcpRange s e = some (List.range' s (e + 1 - s)) := by
  intro n
  induction n with
  | zero => intro s e hn hse _; omega
  | succ n ih =>
    intro s e hn hse he
    rw [dhcpRange, dif_pos hse, if_pos (by omega)]
    by_cases hcase : s = e
    · subst hcase
      rw [dhcpRange_of_lt (by omega)]
      have h1 : s + 1 - s = 1 := by omega
      rw [h1]
      rfl
    · have hslt : s < e := lt_of_le_of_ne hse hcase
      rw [ih (s + 1) e (by omega) (by omega) he]
      have h1 : e + 1 - s = (e + 1 - (s + 1)) + 1 := by omega
      rw [h1]
      rfl

theorem dhcpRange_eq_range' {s e : Nat} (hse : s ≤ e) (he : e < 2 ^ 32 - 1) :
    dhcpRange s e = some (List.range' s (e + 1 - s)) :=
  dhcpRange_eq_range'_aux (e + 1 - s) s e le_rfl hse he

theorem dhcpRange_overflow_aux :
    ∀ (n s e : Nat), e + 1 - s ≤ n → s ≤ e → 2 ^ 32 - 1 ≤ e → dhcpRange s e = none := by
  intro n
  induction n with
  | zero => intro s e hn hse _; omega
  | succ n ih =>
    intro s e hn hse he
    rw [dhcpRange, dif_pos hse]
    by_cases hs : s + 1 ≤ 2 ^ 32 - 1
    · rw [if_pos hs, ih (s + 1) e (by omega) (by omega) he]
    · rw [if_neg hs]

theorem dhcpRange_overflow {s e : Nat} (hse : s ≤ e) (he : 2 ^ 32 - 1 ≤ e) :
    dhcpRange s e = none :=
  dhcpRange_overflow_aux (e + 1 - s) s e le_rfl hse he

/- Every address of the inclusive pool bounds lands in a successful
   enumeration. -/
theorem mem_of_dhcpRange_some {s e x : Nat} {rng : List Nat}
    (h : dhcpRange s e = some rng) (h1 : s ≤ x) (h2 : x ≤ e) : x ∈ rng := by
  have hse : s ≤ e := le_trans h1 h2
  by_cases he : e < 2 ^ 32 - 1
  · rw [dhcpRange_eq_range' hse he] at h
    obtain rfl : List.range' s (e + 1 - s) = rng := by injection h
    rw [List.mem_range'_1]
    omega
  · rw [dhcpRange_overflow hse (by omega)] at h
    exact absurd h (by simp)

/- ==================== calculate_free_ips characterization ==================== -/

theorem get_vlan_info_eq
    (inv : Inventory) (v : Nat) (s : String) (st0 : Site)
    (hst0 : lookupSite inv s = some st0) :
    get_vlan_info inv v s = some (st0.vlans.find? (fun rec => rec.id = v)) := by
  unfold get_vlan_info
  rw [hst0]
  rfl

theorem get_devices_by_vlan_eq
    (inv : Inventory) (v : Nat) (s : String) (st0 : Site)
    (hst0 : lookupSite inv s = some st0) :
    get_devices_by_vlan inv v (some s) =
      some ((st0.devices.map (annotateDevice s)).filter (fun d => d.vlan = some v),
            updateSite inv s (Site.annotate s st0)) := by
  unfold get_devices_by_vlan get_all_devices
  dsimp only
  rw [hst0]
  rfl

theorem calculate_free_ips_eq
    (inv : Inventory) (v : Nat) (s : String) (st0 : Site) (r : VlanRecord)
    (hst0 : lookupSite inv s = some st0)
    (hfind : st0.vlans.find? (fun rec => rec.id = v) = some r) :
    calculate_free_ips inv v s =
      match r.dhcp_pool with
      | some pool => (dhcpRange pool.start pool.endAddr).map
          (fun rng => r.subnet.hosts.filter
            (fun ip => decide (ip ∉ usedOf s st0 r v ++ rng)))
      | none => some (r.subnet.hosts.filter
          (fun ip => decide (ip ∉ usedOf s st0 r v))) := by
  have hv : get_vlan_info inv v s = some (some r) := by
    rw [get_vlan_info_eq inv v s st0 hst0, hfind]
  unfold calculate_free_ips
  rw [hv, get_devices_by_vlan_eq inv v s st0 hst0]
  dsimp only
  cases hp : r.dhcp_pool with
  | none => rfl
  | some pool =>
    dsimp only
    cases hr : dhcpRange pool.start pool.endAddr with
    | none => rfl
    | some rng => rfl

/-- C2 (confirmed): the DHCP pool enumeration of calculate_free_ips
terminates for every pair of bounds: with end < start it contributes the
empty range, with start <= end < 2^32 - 1 it is exactly the inclusive
interval, and with end at or beyond 2^32 - 1 it stops with the ValueError
of ip_address (never looping forever); consequently a record whose pool
has end < start gives a terminating, successful calculate_free_ips run
whenever the site exists. -/
theorem dhcpRange_terminates :
    (∀ s e : Nat, e < s → dhcpRange s e = some []) ∧
    (∀ s e : Nat, s ≤ e → e < 2 ^ 32 - 1 →
      dhcpRange s e = some (List.range' s (e + 1 - s))) ∧
    (∀ s e : Nat, s ≤ e → 2 ^ 32 - 1 ≤ e → dhcpRange s e = none) ∧
    (∀ (inv : Inventory) (v : Nat) (s : String) (st0 : Site) (r : VlanRecord)
       (p : DhcpPool),
      lookupSite inv s = some st0 →
      st0.vlans.find? (fun rec => rec.id = v) = some r →
      r.dhcp_pool = some p → p.endAddr < p.start →
      ∃ l, calculate_free_ips inv v s = some l) := by
  refine ⟨fun s e h => dhcpRange_of_lt h,
          fun s e h1 h2 => dhcpRange_eq_range' h1 h2,
          fun s e h1 h2 => dhcpRange_overflow h1 h2, ?_⟩
  intro inv v s st0 r p hst0 hfind hp hrev
  rw [calculate_free_ips_eq inv v s st0 r hst0 hfind, hp]
  dsimp only
  rw [dhcpRange_of_lt hrev]
  exact ⟨_, rfl⟩

/-- C2 witness: the characterization applied at concrete bounds, and a
concrete inventory whose pool is reversed. -/
theorem dhcpRange_terminates_witness :
    dhcpRange 5 3 = some [] ∧
    dhcpRange 3 5 = some [3, 4, 5] ∧
    (∃ l, calculate_free_ips invPoolRev 20 "hq" = some l) := by
  refine ⟨dhcpRange_terminates.1 5 3 (by omega), ?_, ?_⟩
  · have h := dhcpRange_terminates.2.1 3 5 (by omega) (by norm_num)
    exact h
  · exact dhcpRange_terminates.2.2.2 invPoolRev 20 "hq" ⟨[], [recPoolRev]⟩
      recPoolRev ⟨168432740, 168432690⟩ (by decide) (by decide) rfl (by decide)

/- ==================== Subnet.hosts lemmas ==================== -/

theorem hosts_le30 {s : Subnet} (h : s.prefixLen ≤ 30) :
    s.hosts = List.range' (s.network + 1) (s.size - 2) := by
  unfold Subnet.hosts
  rw [if_pos h]

theorem size_ge_four {s : Subnet} (h : s.prefixLen ≤ 30) : 4 ≤ s.size := by
  unfold Subnet.size
  calc (4 : Nat) = 2 ^ 2 := rfl
  _ ≤ 2 ^ (32 - s.prefixLen) := Nat.pow_le_pow_right (by omega) (by omega)

theorem mem_hosts_le30 {s : Subnet} {ip : Nat} (h : s.prefixLen ≤ 30) :
    ip ∈ s.hosts ↔ s.network + 1 ≤ ip ∧ ip < s.broadcast := by
  rw [hosts_le30 h, List.mem_range'_1]
  have h4 := size_ge_four h
  unfold Subnet.broadcast
  omega

theorem pairwise_hosts {s : Subnet} (h : s.prefixLen ≤ 30) :
    s.hosts.Pairwise (· < ·) := by
  rw [hosts_le30 h]
  exact List.pairwise_lt_range' _ _

/- ==================== usedOf membership lemmas ==================== -/

theorem mem_usedOf_device {s : String} {st0 : Site} {r : VlanRecord} {v n : Nat}
    {d : Device} (hd : d ∈ st0.devices) (hvlan : d.vlan = some v)
    (hip : d.ip = some (IpVal.lit n)) : n ∈ usedOf s st0 r v := by
  have h1 : annotateDevice s d ∈
      (st0.devices.map (annotateDevice s)).filter (fun d => d.vlan = some v) := by
    rw [List.mem_filter]
    exact ⟨List.mem_map_of_mem _ hd, by simp [annotateDevice, hvlan]⟩
  have h2 : n ∈ usedIpsOf
      ((st0.devices.map (annotateDevice s)).filter (fun d => d.vlan = some v)) := by
    unfold usedIpsOf
    rw [List.mem_filterMap]
    exact ⟨annotateDevice s d, h1, by simp [annotateDevice, hip]⟩
  unfold usedOf
  cases hg : r.gateway with
  | none => exact h2
  | some g => exact List.mem_append_left _ h2

theorem mem_usedOf_gateway {s : String} {st0 : Site} {r : VlanRecord} {v g : Nat}
    (hg : r.gateway = some g) : g ∈ usedOf s st0 r v := by
  unfold usedOf
  rw [hg]
  simp

/-- C1 (corrected: the guarantee holds for subnets of prefix length at most
30; Python's hosts() deliberately includes the network and broadcast
addresses for /31 and /32 blocks): whenever the site has a VlanRecord for
the VLAN id, every address returned by calculate_free_ips is a host
address of the record's subnet distinct from the network and broadcast
addresses, differs from every literal device address of that VLAN and
site, from the declared gateway, and lies outside the declared DHCP pool
(bounds inclusive); and the returned sequence is strictly ascending, hence
duplicate-free. -/
theorem freeIps_sound_on_standard_subnets :
    ∀ (inv : Inventory) (v : Nat) (s : String) (r : VlanRecord) (free : List Nat),
      get_vlan_info inv v s = some (some r) →
      r.subnet.prefixLen ≤ 30 →
      calculate_free_ips inv v s = some free →
      List.Pairwise (· < ·) free ∧
      ∀ ip ∈ free,
        (ip ∈ r.subnet.hosts ∧ ip ≠ r.subnet.network ∧ ip ≠ r.subnet.broadcast) ∧
        (∀ st, lookupSite inv s = some st →
          ∀ d ∈ st.devices, d.vlan = some v →
          ∀ n, d.ip = some (IpVal.lit n) → ip ≠ n) ∧
        (∀ g, r.gateway = some g → ip ≠ g) ∧
        (∀ p, r.dhcp_pool = some p → ¬ (p.start ≤ ip ∧ ip ≤ p.endAddr)) := by
  intro inv v s r free hv h30 hcalc
  obtain ⟨st0, hst0, hfind⟩ : ∃ st0, lookupSite inv s = some st0 ∧
      st0.vlans.find? (fun rec => rec.id = v) = some r := by
    unfold get_vlan_info at hv
    cases hls : lookupSite inv s with
    | none => rw [hls] at hv; simp at hv
    | some st0 =>
      rw [hls] at hv
      simp only [Option.map_some', Option.some.injEq] at hv
      exact ⟨st0, rfl, hv⟩
  rw [calculate_free_ips_eq inv v s st0 r hst0 hfind] at hcalc
  have main : ∃ U : List Nat,
      free = r.subnet.hosts.filter (fun ip => decide (ip ∉ U)) ∧
      (∀ x ∈ usedOf s st0 r v, x ∈ U) ∧
      (∀ p, r.dhcp_pool = some p → ∀ x, p.start ≤ x → x ≤ p.endAddr → x ∈ U) := by
    cases hp : r.dhcp_pool with
    | none =>
      rw [hp] at hcalc
      refine ⟨usedOf s st0 r v, ?_, fun x hx => hx, ?_⟩
      · injection hcalc with h
        exact h.symm
      · intro p hp2 x _ _
        exact Option.noConfusion hp2
    | some pool =>
      rw [hp] at hcalc
      dsimp only at hcalc
      cases hr : dhcpRange pool.start pool.endAddr with
      | none =>
        rw [hr] at hcalc
        simp at hcalc
      | some rng =>
        rw [hr] at hcalc
        refine ⟨usedOf s st0 r v ++ rng, ?_, fun x hx => List.mem_append_left _ hx, ?_⟩
        · simp only [Option.map_some', Option.some.injEq] at hcalc
          exact hcalc.symm
        · intro p hp2 x h1 h2
          injection hp2 with hp2
          subst hp2
          exact List.mem_append_right _ (mem_of_dhcpRange_some hr h1 h2)
  obtain ⟨U, hfree, hsubU, hpoolU⟩ := main
  subst hfree
  constructor
  · exact List.Pairwise.sublist (List.filter_sublist _) (pairwise_hosts h30)
  · intro ip hip
    rw [List.mem_filter] at hip
    obtain ⟨hhost, hnotU⟩ := hip
    have hnotU' : ip ∉ U := of_decide_eq_true hnotU
    have hbounds := (mem_hosts_le30 h30).mp hhost
    have h4 := size_ge_four h30
    refine ⟨⟨hhost, by unfold Subnet.broadcast at hbounds; omega,
            by unfold Subnet.broadcast at hbounds ⊢; omega⟩, ?_, ?_, ?_⟩
    · intro st hst d hd hvda n hipn heq
      rw [hst0] at hst
      injection hst with hst
      subst hst
      subst heq
      exact hnotU' (hsubU _ (mem_usedOf_device hd hvda hipn))
    · intro g hg heq
      subst heq
      exact hnotU' (hsubU _ (mem_usedOf_gateway hg))
    · rintro p hp2 ⟨h1, h2⟩
      exact hnotU' (hpoolU p hp2 ip h1 h2)

/-- C1 counterexample: for a /31 subnet the claim as stated fails — with no
devices, no gateway and no pool, calculate_free_ips returns both addresses
of the block, including the network address itself (and the second one is
the broadcast address). -/
theorem freeIps_slash31_includes_network :
    calculate_free_ips inv31 10 "hq" = some [167772160, 167772161] ∧
    get_vlan_info inv31 10 "hq" = some (some rec31) ∧
    rec31.subnet.network = 167772160 ∧
    rec31.subnet.broadcast = 167772161 := by
  refine ⟨?_, by decide, by decide, by decide⟩
  decide

/-- C1 witness: the corrected theorem applied to a concrete /30 inventory
with one device (literal ip 99), gateway 41, no pool; its single free
address is 42. -/
theorem freeIps_sound_witness :
    List.Pairwise (· < ·) [42] ∧
    ∀ ip ∈ [42],
      (ip ∈ recW30.subnet.hosts ∧ ip ≠ recW30.subnet.network ∧
        ip ≠ recW30.subnet.broadcast) ∧
      (∀ st, lookupSite invW30 "hq" = some st →
        ∀ d ∈ st.devices, d.vlan = some 20 →
        ∀ n, d.ip = some (IpVal.lit n) → ip ≠ n) ∧
      (∀ g, recW30.gateway = some g → ip ≠ g) ∧
      (∀ p, recW30.dhcp_pool = some p → ¬ (p.start ≤ ip ∧ ip ≤ p.endAddr)) :=
  freeIps_sound_on_standard_subnets invW30 20 "hq" recW30 [42]
    (by decide) (by decide) (by decide)

/-- C3 (corrected: the gateway must be a host address of the /24, i.e.
strictly between the network and broadcast addresses, not merely inside
the subnet): with a /24 subnet, such a gateway, no declared DHCP pool and
no devices of the VLAN at the site, calculate_free_ips returns exactly
253 addresses. -/
theorem freeIps_slash24_253 :
    ∀ (inv : Inventory) (v : Nat) (s : String) (st0 : Site) (r : VlanRecord) (g : Nat),
      lookupSite inv s = some st0 →
      st0.vlans.find? (fun rec => rec.id = v) = some r →
      r.subnet.prefixLen = 24 →
      r.gateway = some g →
      r.subnet.network < g → g < r.subnet.broadcast →
      r.dhcp_pool = none →
      (∀ d ∈ st0.devices, d.vlan ≠ some v) →
      ∃ free, calculate_free_ips inv v s = some free ∧ free.length = 253 := by
  intro inv v s st0 r g hst0 hfind h24 hg hg1 hg2 hpool hnodev
  rw [calculate_free_ips_eq inv v s st0 r hst0 hfind, hpool]
  refine ⟨_, rfl, ?_⟩
  have hsz : r.subnet.size = 256 := by
    unfold Subnet.size
    rw [h24]
    norm_num
  have hused : usedOf s st0 r v = [g] := by
    unfold usedOf
    rw [hg]
    have hfil : (st0.devices.map (annotateDevice s)).filter
        (fun d => d.vlan = some v) = [] := by
      rw [List.filter_eq_nil_iff]
      intro d hd
      rw [List.mem_map] at hd
      obtain ⟨d0, hd0, rfl⟩ := hd
      simpa [annotateDevice] using hnodev d0 hd0
    rw [hfil]
    rfl
  rw [hused]
  have hhosts : r.subnet.hosts = List.range' (r.subnet.network + 1) 254 := by
    rw [hosts_le30 (by omega), hsz]
  rw [hhosts]
  have hpred : (fun ip : Nat => decide (ip ∉ [g])) = (fun ip => ip != g) := by
    funext ip
    by_cases h : ip = g <;> simp [h]
  rw [hpred]
  have hnd : (List.range' (r.subnet.network + 1) 254).Nodup := List.nodup_range' _ _
  have hmem : g ∈ List.range' (r.subnet.network + 1) 254 := by
    rw [List.mem_range'_1]
    unfold Subnet.broadcast at hg2
    omega
  rw [← List.Nodup.erase_eq_filter hnd g, List.length_erase_of_mem hmem,
    List.length_range']

set_option maxRecDepth 40000 in
/-- C3 counterexample: a /24 record whose declared gateway is the network
address (which is inside the subnet) makes calculate_free_ips return 254
addresses, not 253, because hosts() never yields the network address in
the first place. -/
theorem freeIps_gateway_network_254 :
    (calculate_free_ips invGwNet 20 "hq").map List.length = some 254 ∧
    recGwNet.subnet.prefixLen = 24 ∧
    recGwNet.gateway = some recGwNet.subnet.network ∧
    recGwNet.dhcp_pool = none := by
  refine ⟨?_, by decide, by decide, by decide⟩
  decide

/-- C3 witness: the corrected theorem applied to a concrete /24 inventory
(10.10.20.0/24, gateway 10.10.20.1, no pool, no devices). -/
theorem freeIps_slash24_253_witness :
    ∃ free, calculate_free_ips invW24 20 "hq" = some free ∧ free.length = 253 :=
  freeIps_slash24_253 invW24 20 "hq" ⟨[], [rec24]⟩ rec24 168432641
    (by decide) (by decide) (by decide) (by decide) (by decide) (by decide)
    (by decide) (by simp)

/- ==================== statistics lemmas ==================== -/

theorem sumCounts_bump {α : Type} [DecidableEq α] (m : List (α × Nat)) (k : α) :
    sumCounts (bump m k) = sumCounts m + 1 := by
  induction m with
  | nil => rfl
  | cons p rest ih =>
    obtain ⟨k0, c⟩ := p
    by_cases h : k0 = k
    · simp only [bump, if_pos h, sumCounts, List.map_cons, List.sum_cons]
      omega
    · simp only [bump, if_neg h, sumCounts, List.map_cons, List.sum_cons] at ih ⊢
      omega

theorem sumCounts_countsBy_aux {α : Type} [DecidableEq α] (key : Device → α) :
    ∀ (ds : List Device) (m : List (α × Nat)),
      sumCounts (ds.foldl (fun m d => bump m (key d)) m) = sumCounts m + ds.length := by
  intro ds
  induction ds with
  | nil => intro m; simp
  | cons d rest ih =>
    intro m
    simp only [List.foldl_cons, List.length_cons]
    rw [ih, sumCounts_bump]
    omega

theorem sumCounts_countsBy {α : Type} [DecidableEq α] (key : Device → α)
    (ds : List Device) : sumCounts (countsBy key ds) = ds.length := by
  unfold countsBy
  rw [sumCounts_countsBy_aux]
  simp [sumCounts]

/-- C8 (confirmed): for every inventory state and optional site filter,
whenever get_network_statistics returns a result, the by_type counts sum
to total_devices, and dhcp_devices plus static_devices equals
total_devices (a device counts as DHCP exactly when its ip field is the
sentinel "dhcp"). -/
theorem statistics_totals :
    ∀ (inv : Inventory) (site : Option String) (st : Stats),
      get_network_statistics inv site = some st →
      sumCounts st.by_type = st.total_devices ∧
      st.dhcp_devices + st.static_devices = st.total_devices := by
  intro inv site st h
  unfold get_network_statistics at h
  cases hg : get_all_devices inv site with
  | none => rw [hg] at h; exact Option.noConfusion h
  | some p =>
    rw [hg] at h
    simp only [Option.map_some', Option.some.injEq] at h
    subst h
    constructor
    · exact sumCounts_countsBy _ _
    · have hle : p.1.countP (fun d => d.ip = some IpVal.dhcp) ≤ p.1.length :=
        List.countP_le_length _
      simp only
      omega

/-- C8 witness: the theorem applied to a concrete one-device inventory,
whose statistics record is stW. -/
theorem statistics_totals_witness :
    sumCounts stW.by_type = stW.total_devices ∧
    stW.dhcp_devices + stW.static_devices = stW.total_devices :=
  statistics_totals invC7 none stW (by decide)

/-- C10 (confirmed): get_all_devices without a site filter is not
read-only: the store state it returns alongside the device list has every
device's site field overwritten with its owning site key; save_inventory
writes the in-memory state as is, so the annotation reaches backing
storage on the next save; and there is a concrete inventory the query
visibly mutates, so the operation is not frame-preserving. -/
theorem get_all_devices_annotates_store :
    (∀ (inv : Inventory) (ds : List Device) (inv' : Inventory),
      get_all_devices inv none = some (ds, inv') →
      ∀ p ∈ inv'.sites, ∀ d ∈ p.2.devices, d.site = some p.1) ∧
    (∀ inv : Inventory, save_inventory inv = inv) ∧
    (∃ (inv : Inventory) (ds : List Device) (inv' : Inventory),
      get_all_devices inv none = some (ds, inv') ∧ inv' ≠ inv) := by
  refine ⟨?_, fun inv => rfl, ?_⟩
  · intro inv ds inv' h p hp d hd
    unfold get_all_devices at h
    simp only [Option.some.injEq, Prod.mk.injEq] at h
    obtain ⟨h1, h2⟩ := h
    subst h2
    simp only [List.mem_map] at hp
    obtain ⟨q, hq, rfl⟩ := hp
    simp only [Site.annotate, List.mem_map] at hd
    obtain ⟨d0, hd0, rfl⟩ := hd
    rfl
  · exact ⟨invC7, [annotateDevice "hq" devA],
      ⟨[("hq", ⟨[annotateDevice "hq" devA], []⟩)]⟩, rfl, by decide⟩

/-- C10 witness: the annotation clause applied to the concrete one-site
inventory invC7. -/
theorem get_all_devices_annotates_store_witness :
    (annotateDevice "hq" devA).site = some "hq" :=
  get_all_devices_annotates_store.1 invC7 [annotateDevice "hq" devA]
    ⟨[("hq", ⟨[annotateDevice "hq" devA], []⟩)]⟩ rfl
    ("hq", ⟨[annotateDevice "hq" devA], []⟩) (by simp)
    (annotateDevice "hq" devA) (by simp)

/- ==================== updateSite lemmas ==================== -/

theorem find?_update_list (l : List (String × Site)) (s : String) (st' : Site)
    (h : (l.find? (fun p => p.1 = s)).isSome) :
    ((l.map (fun p => if p.1 = s then (p.1, st') else p)).find?
      (fun p => p.1 = s)).map (fun p => p.2) = some st' := by
  induction l with
  | nil => simp at h
  | cons q rest ih =>
    by_cases hq : q.1 = s
    · simp [List.find?_cons, hq]
    · simp only [List.map_cons, if_neg hq]
      rw [List.find?_cons_of_neg _ (by simpa using hq)] at h ⊢
      exact ih h

theorem lookupSite_updateSite {inv : Inventory} {s : String}
    (h : (lookupSite inv s).isSome) (st' : Site) :
    lookupSite (updateSite inv s st') s = some st' := by
  unfold lookupSite at h ⊢
  unfold updateSite
  exact find?_update_list inv.sites s st' (by simpa using h)

theorem updateSite_updateSite (inv : Inventory) (s : String) (a b : Site) :
    updateSite (updateSite inv s a) s b = updateSite inv s b := by
  unfold updateSite
  simp only [List.map_map]
  congr 1
  apply List.map_congr_left
  intro p hp
  by_cases hq : p.1 = s <;> simp [Function.comp, hq]

/- ==================== add_device characterization ==================== -/

theorem add_device_char (inv : Inventory) (s : String) (d : Device) :
    (requiredOk d = false → add_device inv s d = (false, inv)) ∧
    (∀ nm, requiredOk d = true → d.name = some nm → lookupSite inv s = none →
      add_device inv s d = (false, inv)) ∧
    (∀ nm st e, requiredOk d = true → d.name = some nm → lookupSite inv s = some st →
      (st.devices.map (annotateDevice s)).find? (fun x => x.name = some nm) = some e →
      add_device inv s d = (false, updateSite inv s (Site.annotate s st))) ∧
    (∀ nm st, requiredOk d = true → d.name = some nm → lookupSite inv s = some st →
      (st.devices.map (annotateDevice s)).find? (fun x => x.name = some nm) = none →
      add_device inv s d = (true, updateSite inv s
        { devices := st.devices.map (annotateDevice s) ++ [d], vlans := st.vlans })) := by
  refine ⟨?_, ?_, ?_, ?_⟩
  · intro h
    unfold add_device
    rw [if_neg (by simp [h])]
  · intro nm h1 h2 h3
    have hg : get_device_by_name inv nm (some s) = none := by
      unfold get_device_by_name get_all_devices
      dsimp only
      rw [h3]
      rfl
    unfold add_device
    rw [if_pos h1, h2]
    dsimp only
    rw [hg]
  · intro nm st e h1 h2 h3 hfind
    have hg : get_device_by_name inv nm (some s) =
        some ((st.devices.map (annotateDevice s)).find? (fun x => x.name = some nm),
              updateSite inv s (Site.annotate s st)) := by
      unfold get_device_by_name get_all_devices
      dsimp only
      rw [h3]
      rfl
    unfold add_device
    rw [if_pos h1, h2]
    dsimp only
    rw [hg]
    dsimp only
    rw [hfind]
  · intro nm st h1 h2 h3 hfind
    have hg : get_device_by_name inv nm (some s) =
        some ((st.devices.map (annotateDevice s)).find? (fun x => x.name = some nm),
              updateSite inv s (Site.annotate s st)) := by
      unfold get_device_by_name get_all_devices
      dsimp only
      rw [h3]
      rfl
    have hd2 : lookupSite (updateSite inv s (Site.annotate s st)) s =
        some (Site.annotate s st) :=
      lookupSite_updateSite (by simp [h3]) _
    unfold add_device
    rw [if_pos h1, h2]
    dsimp only
    rw [hg]
    dsimp only
    rw [hfind, hd2]
    dsimp only
    unfold save_inventory
    rw [updateSite_updateSite]
    rfl

theorem find_after_add (inv : Inventory) (s : String) (d : Device) (nm : String)
    (st : Site) (h1 : requiredOk d = true) (h2 : d.name = some nm)
    (h3 : lookupSite inv s = some st)
    (h4 : ∀ e ∈ st.devices, e.name ≠ some nm) :
    (get_device_by_name (add_device inv s d).2 nm (some s)).map Prod.fst =
      some (some (annotateDevice s d)) := by
  have hfind : (st.devices.map (annotateDevice s)).find?
      (fun x => x.name = some nm) = none := by
    rw [List.find?_eq_none]
    intro x hx
    rw [List.mem_map] at hx
    obtain ⟨e, he, rfl⟩ := hx
    simpa [annotateDevice] using h4 e he
  rw [(add_device_char inv s d).2.2.2 nm st h1 h2 h3 hfind]
  dsimp only
  have hd2 : lookupSite (updateSite inv s
      { devices := st.devices.map (annotateDevice s) ++ [d], vlans := st.vlans }) s =
      some { devices := st.devices.map (annotateDevice s) ++ [d], vlans := st.vlans } :=
    lookupSite_updateSite (by simp [h3]) _
  unfold get_device_by_name get_all_devices
  dsimp only
  rw [hd2]
  dsimp only [Option.map_some']
  rw [List.map_append, List.find?_append]
  have hleft : ((st.devices.map (annotateDevice s)).map (annotateDevice s)).find?
      (fun x => x.name = some nm) = none := by
    rw [List.map_map, List.find?_eq_none]
    intro x hx
    rw [List.mem_map] at hx
    obtain ⟨e, he, rfl⟩ := hx
    simpa [annotateDevice, Function.comp] using h4 e he
  rw [hleft]
  simp [List.find?, annotateDevice, h2]

/-- C7 (corrected: the name-collision lookup annotates the site's stored
devices in place before failing, so a collision failure leaves the device
list with its records' site fields rewritten — nothing is appended and no
other field changes — and the record found after a successful add is the
added record with its site field set to the owning site key):
add_device fails when a required field is absent (store untouched) or when
a device of that name exists in the site; on success it appends the device
and get_device_by_name then finds exactly the added record, site-annotated. -/
theorem add_device_spec :
    (∀ (inv : Inventory) (s : String) (d : Device),
      requiredOk d = false → add_device inv s d = (false, inv)) ∧
    (∀ (inv : Inventory) (s : String) (d : Device) (nm : String) (st : Site),
      requiredOk d = true → d.name = some nm → lookupSite inv s = some st →
      (∃ e ∈ st.devices, e.name = some nm) →
      add_device inv s d = (false, updateSite inv s (Site.annotate s st))) ∧
    (∀ (inv : Inventory) (s : String) (d : Device) (nm : String) (st : Site),
      requiredOk d = true → d.name = some nm → lookupSite inv s = some st →
      (∀ e ∈ st.devices, e.name ≠ some nm) →
      add_device inv s d = (true, updateSite inv s
        { devices := st.devices.map (annotateDevice s) ++ [d], vlans := st.vlans }) ∧
      (get_device_by_name (add_device inv s d).2 nm (some s)).map Prod.fst =
        some (some (annotateDevice s d))) := by
  refine ⟨?_, ?_, ?_⟩
  · intro inv s d h
    exact (add_device_char inv s d).1 h
  · intro inv s d nm st h1 h2 h3 hex
    obtain ⟨e, he, hename⟩ := hex
    have hsome : ((st.devices.map (annotateDevice s)).find?
        (fun x => x.name = some nm)).isSome := by
      rw [List.find?_isSome]
      exact ⟨annotateDevice s e, List.mem_map_of_mem _ he,
        by simp [annotateDevice, hename]⟩
    obtain ⟨e', he'⟩ := Option.isSome_iff_exists.mp hsome
    exact (add_device_char inv s d).2.2.1 nm st e' h1 h2 h3 he'
  · intro inv s d nm st h1 h2 h3 hall
    have hfind : (st.devices.map (annotateDevice s)).find?
        (fun x => x.name = some nm) = none := by
      rw [List.find?_eq_none]
      intro x hx
      rw [List.mem_map] at hx
      obtain ⟨e, he, rfl⟩ := hx
      simpa [annotateDevice] using hall e he
    exact ⟨(add_device_char inv s d).2.2.2 nm st h1 h2 h3 hfind,
      find_after_add inv s d nm st h1 h2 h3 hall⟩

/-- C7 counterexample: with a stored device named "a" whose site field is
not yet annotated, adding another device named "a" fails as specified but
visibly changes the store — the claim's "the site's device list is left
unchanged" is false. -/
theorem add_device_failure_mutates :
    (add_device invC7 "hq" devB).1 = false ∧
    (add_device invC7 "hq" devB).2 ≠ invC7 := by
  constructor
  · decide
  · decide

/-- C7 witness: the success clause applied to the concrete inventory invC7
and the fresh device devC. -/
theorem add_device_spec_witness :
    add_device invC7 "hq" devC = (true, updateSite invC7 "hq"
      { devices := [devA].map (annotateDevice "hq") ++ [devC], vlans := [] }) ∧
    (get_device_by_name (add_device invC7 "hq" devC).2 "c" (some "hq")).map Prod.fst =
      some (some (annotateDevice "hq" devC)) :=
  add_device_spec.2.2 invC7 "hq" devC "c" ⟨[devA], []⟩ (by decide) (by decide)
    (by decide) (by decide)

/- ==================== invariant lemmas ==================== -/

theorem updateSite_forall {P : Site → Prop} (inv : Inventory) (s : String) (st' : Site)
    (h1 : ∀ p ∈ inv.sites, P p.2) (h2 : P st') :
    ∀ p ∈ (updateSite inv s st').sites, P p.2 := by
  intro p hp
  unfold updateSite at hp
  simp only [List.mem_map] at hp
  obtain ⟨q, hq, rfl⟩ := hp
  by_cases hqs : q.1 = s
  · simp only [if_pos hqs]
    exact h2
  · simp only [if_neg hqs]
    exact h1 q hq

theorem lookupSite_mem {inv : Inventory} {s : String} {st : Site}
    (h : lookupSite inv s = some st) : ∃ q ∈ inv.sites, q.2 = st := by
  unfold lookupSite at h
  cases hf : inv.sites.find? (fun p => p.1 = s) with
  | none => rw [hf] at h; exact Option.noConfusion h
  | some q =>
    rw [hf] at h
    simp only [Option.map_some', Option.some.injEq] at h
    exact ⟨q, List.mem_of_find?_eq_some hf, h⟩

theorem namesOk_annotate {s : String} {st : Site} (h : namesOk st) :
    namesOk (Site.annotate s st) := by
  unfold namesOk at h ⊢
  unfold Site.annotate
  simp only [List.map_map]
  exact h

theorem namesOk_append {s : String} {st : Site} {d : Device} {nm : String}
    (h : namesOk st) (hd : d.name = some nm)
    (hall : ∀ e ∈ st.devices, e.name ≠ some nm) :
    namesOk { devices := st.devices.map (annotateDevice s) ++ [d],
              vlans := st.vlans } := by
  unfold namesOk at h ⊢
  simp only [List.map_append, List.map_map]
  rw [List.nodup_append]
  refine ⟨h, List.nodup_singleton _, ?_⟩
  intro a ha hb
  simp only [List.map_cons, List.map_nil, List.mem_singleton] at hb
  subst hb
  simp only [List.mem_map, Function.comp] at ha
  obtain ⟨e, he, hne⟩ := ha
  exact hall e he (Eq.trans (show e.name = d.name from hne) hd)

theorem namesOk_filter {st : Site} (p : Device → Bool) (h : namesOk st) :
    namesOk { devices := st.devices.filter p, vlans := st.vlans } := by
  unfold namesOk at h ⊢
  exact List.Nodup.sublist (List.Sublist.map _ (List.filter_sublist _)) h

theorem ipsOk_filter {st : Site} (p : Device → Bool) (h : ipsOk st) :
    ipsOk { devices := st.devices.filter p, vlans := st.vlans } := by
  intro d hd
  exact h d (List.mem_of_mem_filter hd)

/-- C9 (corrected: the code only upholds part of the claimed invariants —
add_device preserves per-site name distinctness because it rejects
duplicate names, and delete_device preserves both name distinctness and
the ip-in-subnet invariant; but add_device and update_device never
validate the ip field and update_device can rename a device into an
existing name, so those operations do not preserve the invariants in
general): add_device preserves namesOk at every site, and delete_device
preserves namesOk and ipsOk at every site. -/
theorem crud_invariant_preservation :
    (∀ (inv : Inventory) (s : String) (d : Device) (b : Bool) (inv' : Inventory),
      add_device inv s d = (b, inv') →
      (∀ p ∈ inv.sites, namesOk p.2) → (∀ p ∈ inv'.sites, namesOk p.2)) ∧
    (∀ (inv : Inventory) (s nm : String) (b : Bool) (inv' : Inventory),
      delete_device inv s nm = (b, inv') →
      (∀ p ∈ inv.sites, namesOk p.2) → (∀ p ∈ inv'.sites, namesOk p.2)) ∧
    (∀ (inv : Inventory) (s nm : String) (b : Bool) (inv' : Inventory),
      delete_device inv s nm = (b, inv') →
      (∀ p ∈ inv.sites, ipsOk p.2) → (∀ p ∈ inv'.sites, ipsOk p.2)) := by
  refine ⟨?_, ?_, ?_⟩
  · intro inv s d b inv' hadd hinv
    by_cases hreq : requiredOk d = true
    · cases hn : d.name with
      | none => simp [requiredOk, hn] at hreq
      | some nm =>
        cases hls : lookupSite inv s with
        | none =>
          rw [(add_device_char inv s d).2.1 nm hreq hn hls] at hadd
          injection hadd with h1 h2
          subst h2
          exact hinv
        | some st =>
          have hstOk : namesOk st := by
            obtain ⟨q, hq, hq2⟩ := lookupSite_mem hls
            rw [← hq2]
            exact hinv q hq
          cases hf : (st.devices.map (annotateDevice s)).find?
              (fun x => x.name = some nm) with
          | some e =>
            rw [(add_device_char inv s d).2.2.1 nm st e hreq hn hls hf] at hadd
            injection hadd with h1 h2
            subst h2
            exact updateSite_forall inv s _ hinv (namesOk_annotate hstOk)
          | none =>
            have hall : ∀ e ∈ st.devices, e.name ≠ some nm := by
              intro e he
              have := List.find?_eq_none.mp hf (annotateDevice s e)
                (List.mem_map_of_mem _ he)
              simpa [annotateDevice] using this
            rw [(add_device_char inv s d).2.2.2 nm st hreq hn hls hf] at hadd
            injection hadd with h1 h2
            subst h2
            exact updateSite_forall inv s _ hinv (namesOk_append hstOk hn hall)
    · rw [(add_device_char inv s d).1 (by simpa using hreq)] at hadd
      injection hadd with h1 h2
      subst h2
      exact hinv
  · intro inv s nm b inv' hdel hinv
    unfold delete_device at hdel
    cases hls : lookupSite inv s with
    | none =>
      rw [hls] at hdel
      injection hdel with h1 h2
      subst h2
      exact hinv
    | some st =>
      rw [hls] at hdel
      dsimp only at hdel
      have hstOk : namesOk st := by
        obtain ⟨q, hq, hq2⟩ := lookupSite_mem hls
        rw [← hq2]
        exact hinv q hq
      by_cases hall : st.devices.all (fun d => d.name.isSome) = true
      · rw [if_pos hall] at hdel
        by_cases hlen : (st.devices.filter
            (fun d => decide (¬ d.name = some nm))).length = st.devices.length
        · rw [if_pos hlen] at hdel
          injection hdel with h1 h2
          subst h2
          exact updateSite_forall inv s _ hinv (namesOk_filter _ hstOk)
        · rw [if_neg hlen] at hdel
          injection hdel with h1 h2
          subst h2
          exact updateSite_forall inv s _ hinv (namesOk_filter _ hstOk)
      · rw [if_neg hall] at hdel
        injection hdel with h1 h2
        subst h2
        exact hinv
  · intro inv s nm b inv' hdel hinv
    unfold delete_device at hdel
    cases hls : lookupSite inv s with
    | none =>
      rw [hls] at hdel
      injection hdel with h1 h2
      subst h2
      exact hinv
    | some st =>
      rw [hls] at hdel
      dsimp only at hdel
      have hstOk : ipsOk st := by
        obtain ⟨q, hq, hq2⟩ := lookupSite_mem hls
        rw [← hq2]
        exact hinv q hq
      by_cases hall : st.devices.all (fun d => d.name.isSome) = true
      · rw [if_pos hall] at hdel
        by_cases hlen : (st.devices.filter
            (fun d => decide (¬ d.name = some nm))).length = st.devices.length
        · rw [if_pos hlen] at hdel
          injection hdel with h1 h2
          subst h2
          exact updateSite_forall inv s _ hinv (ipsOk_filter _ hstOk)
        · rw [if_neg hlen] at hdel
          injection hdel with h1 h2
          subst h2
          exact updateSite_forall inv s _ hinv (ipsOk_filter _ hstOk)
      · rw [if_neg hall] at hdel
        injection hdel with h1 h2
        subst h2
        exact hinv

/-- C9 counterexample: the claim fails on the code in two ways —
update_device happily renames device "b" to the already-present name "a"
(breaking per-site name uniqueness), and add_device accepts a device whose
literal ip 0.0.0.5 is far outside its VLAN's subnet 10.10.20.0/24
(breaking the ip invariant). -/
theorem crud_invariants_violated :
    ((update_device invC9 "hq" "b" updC9).1 = true ∧
      ∃ p ∈ (update_device invC9 "hq" "b" updC9).2.sites, ¬ namesOk p.2) ∧
    ((add_device invC9 "hq" devBadIp).1 = true ∧
      ∃ p ∈ (add_device invC9 "hq" devBadIp).2.sites, ¬ ipsOk p.2) := by
  refine ⟨⟨by decide, ?_⟩, ⟨by decide, ?_⟩⟩
  · decide
  · decide

/-- C9 witness: deleting device "a" from the two-device inventory invC9
preserves name distinctness of the surviving site. -/
theorem crud_invariant_preservation_witness :
    namesOk ⟨[devN2], [rec24]⟩ :=
  crud_invariant_preservation.2.1 invC9 "hq" "a" true
    ⟨[("hq", ⟨[devN2], [rec24]⟩)]⟩ (by decide) (by decide)
    ("hq", ⟨[devN2], [rec24]⟩) (by simp)
